import Mathlib

/-!
Verification development for the Confidence local-resolve OpenFeature
provider (Python sources under `confidence/`).

The development shallowly embeds the fault-isolating supervisor
(`wasm_resolver.py` — class `WasmResolver` wrapping `UnsafeWasmResolver`),
the state refresher (`state_fetcher.py` — class `StateFetcher`), the
telemetry flusher glue (`flag_logger.py` — `FlagLogger.write_logs` and
`provider.py` — `_flush_logs`, `_state_update_loop`) and the provider
façade's evaluation path (`provider.py` — `_evaluate`, `_extract_value`,
`_struct_to_dict`, `_value_to_python`, `resolve_integer_details`).

The guest WASM module is opaque to the host; each call into the guest is
driven by an oracle: a list of prescribed `Outcome`s, consumed in order,
one per guest call.  `Outcome.trap` stands for a wasmtime `RuntimeError`
(the class the supervisor's `isinstance(error, RuntimeError)` test
recognises), `Outcome.guestError` for every other exception the delegate
raises — in particular the plain `Exception` that `_consume_response` /
`flush_logs` raise when the guest returns `Response.error`.
-/

/-- Opaque byte strings (payloads, log chunks); each entry one byte. -/
abbrev Bytes := List Nat

/-- Outcome of a single call into the guest, as classified by the
supervisor's `except` clauses. -/
inductive Outcome where
  | ok (b : Bytes)
  | trap
  | guestError (e : String)
  deriving Repr, DecidableEq

/-- Result a supervisor operation presents to its caller: normal return,
a re-raised `RuntimeError` (trap), or a re-raised guest-reported error. -/
inductive OpResult (α : Type) where
  | ok (a : α)
  | trapErr
  | guestErr (e : String)
  deriving Repr, DecidableEq

/-- State of `WasmResolver`: `_current_state` (the request is modelled by
its opaque payload bytes), `_buffered_logs`, and the identity of the live
delegate instance (`_delegate`), with a counter supplying fresh ids. -/
structure SupState where
  currentState : Option Bytes
  bufferedLogs : List Bytes
  delegate : Nat
  nextId : Nat
  deriving Repr, DecidableEq

/-- The supervisor right after `__init__`: no state, empty buffer, one
freshly created delegate (id 0). -/
def initSup : SupState :=
  { currentState := none, bufferedLogs := [], delegate := 0, nextId := 1 }

/-- The guest entry points the supervisor calls. -/
inductive GuestOp where
  | setState (payload : Bytes)
  | resolve (req : Bytes)
  | flush
  deriving Repr, DecidableEq

/-- Observable events of a supervisor operation: calls into a guest
instance (with the oracle's outcome) and creations of fresh instances. -/
inductive Event where
  | guestCall (inst : Nat) (op : GuestOp) (outcome : Outcome)
  | newInstance (inst : Nat)
  deriving Repr, DecidableEq

/-- Pop the next prescribed outcome; an exhausted oracle defaults to a
trap (the guest is opaque, so some outcome must be chosen). -/
def nextOutcome : List Outcome → Outcome × List Outcome
  | [] => (Outcome.trap, [])
  | o :: os => (o, os)

/-- `WasmResolver._reload_instance`: best-effort `flush_logs` on the
condemned delegate (a returned chunk is appended to `_buffered_logs`,
any failure is logged and ignored), then a new delegate is created, then
`set_resolver_state(self._current_state)` is attempted on it when a
current state is held — its failure is also only logged, so the reload
never recurses.  Returns the new state, the emitted events, and the
remaining oracle. -/
def reloadInstance (s : SupState) (outs : List Outcome) :
    SupState × List Event × List Outcome :=
  let (fo, outs1) := nextOutcome outs
  let s1 :=
    match fo with
    | Outcome.ok chunk => { s with bufferedLogs := s.bufferedLogs ++ [chunk] }
    | _ => s
  let newInst := s1.nextId
  let s2 := { s1 with delegate := newInst, nextId := s1.nextId + 1 }
  let ev := [Event.guestCall s.delegate GuestOp.flush fo, Event.newInstance newInst]
  match s2.currentState with
  | none => (s2, ev, outs1)
  | some st =>
      let (so, outs2) := nextOutcome outs1
      (s2, ev ++ [Event.guestCall newInst (GuestOp.setState st) so], outs2)

/-- `WasmResolver.set_resolver_state`: `self._current_state = request` is
executed before the `try`, then the delegate is called; on a
`RuntimeError` the instance is reloaded and the error re-raised; any
other exception is re-raised without reload. -/
def setResolverState (s : SupState) (request : Bytes) (outs : List Outcome) :
    OpResult Unit × SupState × List Event × List Outcome :=
  let s0 := { s with currentState := some request }
  let (o, outs1) := nextOutcome outs
  let ev := [Event.guestCall s0.delegate (GuestOp.setState request) o]
  match o with
  | Outcome.ok _ => (OpResult.ok (), s0, ev, outs1)
  | Outcome.trap =>
      let (s1, ev1, outs2) := reloadInstance s0 outs1
      (OpResult.trapErr, s1, ev ++ ev1, outs2)
  | Outcome.guestError e => (OpResult.guestErr e, s0, ev, outs1)

/-- `WasmResolver.resolve_with_sticky`: call through; reload on
`RuntimeError`, re-raise in every failure case. -/
def resolveWithSticky (s : SupState) (request : Bytes) (outs : List Outcome) :
    OpResult Bytes × SupState × List Event × List Outcome :=
  let (o, outs1) := nextOutcome outs
  let ev := [Event.guestCall s.delegate (GuestOp.resolve request) o]
  match o with
  | Outcome.ok b => (OpResult.ok b, s, ev, outs1)
  | Outcome.trap =>
      let (s1, ev1, outs2) := reloadInstance s outs1
      (OpResult.trapErr, s1, ev ++ ev1, outs2)
  | Outcome.guestError e => (OpResult.guestErr e, s, ev, outs1)

/-- The concatenation loop of `WasmResolver.flush_logs` (the `bytearray`
copy): chunks joined in order. -/
def concatChunks (chunks : List Bytes) : Bytes :=
  List.foldl (fun acc c => acc ++ c) [] chunks

/-- `WasmResolver.flush_logs`: append the delegate's chunk to
`_buffered_logs`, concatenate the buffer in order, clear it and return
the concatenation; on `RuntimeError` reload and re-raise (nothing was
appended, the buffer is kept); on a guest-reported error re-raise with
no state change. -/
def flushLogs (s : SupState) (outs : List Outcome) :
    OpResult Bytes × SupState × List Event × List Outcome :=
  let (o, outs1) := nextOutcome outs
  let ev := [Event.guestCall s.delegate GuestOp.flush o]
  match o with
  | Outcome.ok chunk =>
      let logs := s.bufferedLogs ++ [chunk]
      (OpResult.ok (concatChunks logs), { s with bufferedLogs := [] }, ev, outs1)
  | Outcome.trap =>
      let (s1, ev1, outs2) := reloadInstance s outs1
      (OpResult.trapErr, s1, ev ++ ev1, outs2)
  | Outcome.guestError e => (OpResult.guestErr e, s, ev, outs1)

/-- A supervisor operation, for statements that range over all three. -/
inductive SupOp where
  | setState (b : Bytes)
  | resolve (r : Bytes)
  | flush
  deriving Repr, DecidableEq

/-- Run one supervisor operation (set-state's `None` return is presented
as the empty byte string). -/
def runOp (s : SupState) (op : SupOp) (outs : List Outcome) :
    OpResult Bytes × SupState × List Event × List Outcome :=
  match op with
  | SupOp.setState b =>
      match setResolverState s b outs with
      | (OpResult.ok _, s1, ev, rest) => (OpResult.ok [], s1, ev, rest)
      | (OpResult.trapErr, s1, ev, rest) => (OpResult.trapErr, s1, ev, rest)
      | (OpResult.guestErr e, s1, ev, rest) => (OpResult.guestErr e, s1, ev, rest)
  | SupOp.resolve r => resolveWithSticky s r outs
  | SupOp.flush => flushLogs s outs

/-- Whether an event is the creation of a fresh guest instance. -/
def Event.isNewInstance : Event → Bool
  | Event.newInstance _ => true
  | _ => false

/-- Number of fresh instances created during an operation — i.e. how
many times `_reload_instance` replaced the delegate. -/
def reloadCount (ev : List Event) : Nat :=
  (ev.filter Event.isNewInstance).length

example :
    (setResolverState initSup [1] [Outcome.ok []]).2.1.currentState = some [1] := by
  decide

example :
    ((setResolverState { initSup with currentState := some [1] } [2]
        [Outcome.trap, Outcome.trap, Outcome.ok []]).2.1).currentState = some [2] := by
  decide

/-! ## State fetcher (`state_fetcher.py`) -/

/-- A response observed by `StateFetcher.fetch_state`.  `ok` is a 2xx
response with an optional `ETag` header and the body bytes;
`notModified` is a 304; `httpError` covers transport errors and the
`httpx.HTTPError` raised by `raise_for_status` on error statuses. -/
inductive HttpResponse where
  | ok (etagHdr : Option String) (body : Bytes)
  | notModified
  | httpError
  deriving Repr, DecidableEq

/-- The fetcher's cache fields: `_etag` and `_cached_state`. -/
structure FetcherState where
  etag : Option String
  cachedState : Option Bytes
  deriving Repr, DecidableEq

/-- What `fetch_state` gives its caller: the state bytes, or the
re-raised `httpx.HTTPError`. -/
inductive FetchResult where
  | ok (b : Bytes)
  | error
  deriving Repr, DecidableEq

/-- The success tail of `fetch_state` (after `raise_for_status`): the
etag is overwritten only when the response carries an `ETag` header
(`if new_etag:`), the body is always cached, and the body is returned. -/
def processSuccess (s : FetcherState) (etagHdr : Option String) (body : Bytes) :
    FetchResult × FetcherState :=
  let s1 :=
    match etagHdr with
    | some e => { s with etag := some e }
    | none => s
  (FetchResult.ok body, { s1 with cachedState := some body })

/-- `StateFetcher.fetch_state`.  `r1` is the (oracle-supplied) response
to the first GET, `r2` the response to the retry GET issued only on a
304 with no cached state.  A 304 with a cache returns the cache
unchanged; errors fall back to the cache when one exists and are
re-raised otherwise. -/
def fetchState (s : FetcherState) (r1 r2 : HttpResponse) :
    FetchResult × FetcherState :=
  match r1 with
  | HttpResponse.notModified =>
      match s.cachedState with
      | some cached => (FetchResult.ok cached, s)
      | none =>
          match r2 with
          | HttpResponse.ok etagHdr body => processSuccess s etagHdr body
          | _ => (FetchResult.error, s)
  | HttpResponse.ok etagHdr body => processSuccess s etagHdr body
  | HttpResponse.httpError =>
      match s.cachedState with
      | some cached => (FetchResult.ok cached, s)
      | none => (FetchResult.error, s)

/-! ## Flag logger and provider flush (`flag_logger.py`, `provider.py`) -/

/-- Outcome of the HTTP POST to the log sink. -/
inductive HttpResult where
  | ok
  | httpError
  deriving Repr, DecidableEq

/-- What `FlagLogger.write_logs` did: skipped the POST (empty payload),
or POSTed with the given outcome.  An `httpx.HTTPError` from the POST is
swallowed (logged, never re-raised). -/
inductive PostAction where
  | skipped
  | posted (r : HttpResult)
  deriving Repr, DecidableEq

/-- `FlagLogger.write_logs`: empty log data skips the POST entirely;
otherwise the bytes are POSTed and an HTTP error is only logged. -/
def writeLogs (logData : Bytes) (post : HttpResult) : PostAction :=
  if logData = [] then PostAction.skipped else PostAction.posted post

/-- `ConfidenceServerProviderLocal._flush_logs`: call the supervisor's
`flush_logs`; on success hand the bytes to `write_logs`; a supervisor
failure is re-raised and no POST happens. -/
def providerFlushLogs (s : SupState) (outs : List Outcome) (post : HttpResult) :
    OpResult Unit × SupState × PostAction × List Event :=
  match flushLogs s outs with
  | (OpResult.ok logData, s1, ev, _) =>
      (OpResult.ok (), s1, writeLogs logData post, ev)
  | (OpResult.trapErr, s1, ev, _) => (OpResult.trapErr, s1, PostAction.skipped, ev)
  | (OpResult.guestErr e, s1, ev, _) => (OpResult.guestErr e, s1, PostAction.skipped, ev)

/-- One iteration of `ConfidenceServerProviderLocal._state_update_loop`:
fetch the state, and on success push it to the supervisor with
`set_resolver_state` — unconditionally, with no comparison against the
state already current.  The third component records the payload pushed
(`none` when the fetch failed and nothing was pushed).  Exceptions are
logged and the loop continues. -/
def stateUpdateCycle (fs : FetcherState) (sup : SupState) (r1 r2 : HttpResponse)
    (outs : List Outcome) : FetcherState × SupState × Option Bytes :=
  match fetchState fs r1 r2 with
  | (FetchResult.ok b, fs1) =>
      let (_, sup1, _, _) := setResolverState sup b outs
      (fs1, sup1, some b)
  | (FetchResult.error, fs1) => (fs1, sup, Option.none)

/-! ## The `current_time` host function (`wasm_resolver.py`,
`UnsafeWasmResolver._register_host_functions`) -/

/-- A Python time value as relevant to the handler: `time.gmtime`
produces a `time.struct_time`, while `google.protobuf.Timestamp.FromDatetime`
requires a `datetime.datetime`. -/
inductive PyTimeValue where
  | structTime (secs : Int)
  | dateTime (secs : Int) (micros : Nat)
  deriving Repr, DecidableEq

/-- `time.gmtime(time.time())`: returns a `time.struct_time`. -/
def timeGmtime (now : Int) : PyTimeValue := PyTimeValue.structTime now

/-- `Timestamp.FromDatetime` (protobuf runtime semantics): reads
`utctimetuple()` / `microsecond` off a `datetime.datetime`; a
`time.struct_time` argument has neither attribute, so the call raises
`AttributeError`. -/
def timestampFromDatetime : PyTimeValue → Except String (Int × Nat)
  | PyTimeValue.dateTime secs micros => Except.ok (secs, micros * 1000)
  | PyTimeValue.structTime _ =>
      Except.error "struct_time object has no attribute utctimetuple"

/-- The `Response` envelope a host function writes back to the guest. -/
inductive HostResponse where
  | data (serializedTimestamp : Int × Nat)
  | error (msg : String)
  deriving Repr, DecidableEq

/-- The `current_time` host closure: build a `Timestamp` from
`time.gmtime(time.time())` and wrap it in `Response.data`; any exception
is caught and returned as `Response.error` (the host never traps). -/
def currentTime (now : Int) : HostResponse :=
  match timestampFromDatetime (timeGmtime now) with
  | Except.ok ts => HostResponse.data ts
  | Except.error e => HostResponse.error e

example : currentTime 0 = HostResponse.error "struct_time object has no attribute utctimetuple" := by
  decide

/-! ## Provider façade (`provider.py`)

Strings the façade computes with (flag keys, path segments, error
messages) are modelled as `List Char`, so that `flag_key.split(".")` can
be reasoned about by induction. -/

/-- A Python string, as a list of characters. -/
abbrev Str := List Char

mutual

/-- A protobuf `Value` as used for flag values (`google.protobuf.Struct`
trees); defined mutually with field lists and element lists so that the
conversion functions recurse structurally.  `numberValue` is the double
field, modelled as a rational. -/
inductive ProtoValue where
  | nullValue
  | boolValue (b : Bool)
  | numberValue (q : ℚ)
  | stringValue (s : Str)
  | structValue (fields : ProtoFields)
  | listValue (xs : ProtoList)

/-- The (ordered, key-unique) fields of a protobuf `Struct`. -/
inductive ProtoFields where
  | nil
  | cons (key : Str) (v : ProtoValue) (rest : ProtoFields)

/-- The elements of a protobuf `ListValue`. -/
inductive ProtoList where
  | nil
  | cons (v : ProtoValue) (rest : ProtoList)

end

/-- A Python value as produced by `_value_to_python` /
`_struct_to_dict`.  Python's `bool` is a distinct constructor even
though it subclasses `int`; `isinstance` checks model the subclassing
explicitly. -/
inductive PyValue where
  | none
  | bool (b : Bool)
  | int (n : ℤ)
  | float (q : ℚ)
  | str (s : Str)
  | dict (fields : List (Str × PyValue))
  | list (xs : List PyValue)

mutual

/-- `_value_to_python`: the `number_value` branch returns `int(num)`
when the double is a whole number (`num == int(num)`); `struct_value`
and `list_value` recurse. -/
def valueToPython : ProtoValue → PyValue
  | ProtoValue.nullValue => PyValue.none
  | ProtoValue.boolValue b => PyValue.bool b
  | ProtoValue.numberValue q =>
      if q.den = 1 then PyValue.int q.num else PyValue.float q
  | ProtoValue.stringValue s => PyValue.str s
  | ProtoValue.structValue fields => PyValue.dict (structToDict fields)
  | ProtoValue.listValue xs => PyValue.list (listToPython xs)

/-- `_struct_to_dict`: convert each field. -/
def structToDict : ProtoFields → List (Str × PyValue)
  | ProtoFields.nil => []
  | ProtoFields.cons k v rest => (k, valueToPython v) :: structToDict rest

/-- The list comprehension of the `list_value` branch. -/
def listToPython : ProtoList → List PyValue
  | ProtoList.nil => []
  | ProtoList.cons v rest => valueToPython v :: listToPython rest

end

/-- Python `dict` membership / indexing (`field in current`,
`current[field]`): keys are unique, so first match suffices. -/
def lookupField : List (Str × PyValue) → Str → Option PyValue
  | [], _ => Option.none
  | (k, v) :: rest, field => if k = field then some v else lookupField rest field

/-- Python `flag_key.split(".")`: non-regex split keeping empty
segments; the empty string splits to one empty segment. -/
def splitDots : Str → List Str
  | [] => [[]]
  | c :: rest =>
      match splitDots rest with
      | [] => [[]]
      | s :: ss => if c = '.' then [] :: s :: ss else (c :: s) :: ss

/-- Python `".".join(path)`. -/
def joinDots : List Str → Str
  | [] => []
  | [s] => s
  | s :: rest => s ++ '.' :: joinDots rest

/-- The `ParseError` message of `_extract_value`. -/
def pathNotFoundMsg (path : List Str) : Str :=
  "Path ".toList ++ joinDots path ++ " not found in flag value".toList

/-- OpenFeature error classes as distinguished by the façade
(`FlagNotFoundError`, `TypeMismatchError`, `ParseError`,
`GeneralError`). -/
inductive OFError where
  | flagNotFound (msg : Str)
  | typeMismatch (msg : Str)
  | parseError (msg : Str)
  | generalError (msg : Str)

/-- `str(e)` of an OpenFeature error: its message. -/
def OFError.message : OFError → Str
  | OFError.flagNotFound m => m
  | OFError.typeMismatch m => m
  | OFError.parseError m => m
  | OFError.generalError m => m

/-- Result of `_extract_value`: the navigated value, or the raised
`ParseError`. -/
inductive ExtractResult where
  | ok (v : PyValue)
  | raisedParseError (msg : Str)

/-- The `for field in path` loop of `_extract_value`; `fullPath` is the
`path` argument the error message is built from. -/
def extractLoop (fullPath : List Str) : PyValue → List Str → ExtractResult
  | current, [] => ExtractResult.ok current
  | current, field :: rest =>
      match current with
      | PyValue.dict fields =>
          match lookupField fields field with
          | some v => extractLoop fullPath v rest
          | Option.none => ExtractResult.raisedParseError (pathNotFoundMsg fullPath)
      | _ => ExtractResult.raisedParseError (pathNotFoundMsg fullPath)

/-- `_extract_value`: start from `_struct_to_dict(struct_value)` and
navigate `path`. -/
def extractValue (structValue : ProtoFields) (path : List Str) : ExtractResult :=
  extractLoop path (PyValue.dict (structToDict structValue)) path

/-- The `ResolveReason` values `_convert_reason` compares against. -/
inductive ResolveReason where
  | rMatch
  | noSegmentMatch
  | flagArchived
  | targetingKeyError
  | rError
  | other
  deriving Repr, DecidableEq

/-- OpenFeature `Reason` strings returned by `_convert_reason`. -/
inductive OFReason where
  | targetingMatch
  | defaultReason
  | disabled
  | errorReason
  | unknown
  deriving Repr, DecidableEq

/-- `_convert_reason`: the if/elif chain. -/
def convertReason : ResolveReason → OFReason
  | ResolveReason.rMatch => OFReason.targetingMatch
  | ResolveReason.noSegmentMatch => OFReason.defaultReason
  | ResolveReason.flagArchived => OFReason.disabled
  | ResolveReason.targetingKeyError => OFReason.errorReason
  | ResolveReason.rError => OFReason.errorReason
  | ResolveReason.other => OFReason.unknown

/-- One entry of `response.success.response.resolved_flags`. -/
structure ResolvedFlag where
  flag : Str
  value : ProtoFields
  variant : Str
  reason : ResolveReason

/-- The guest's `ResolveWithStickyResponse` as inspected by
`_evaluate`: `missing_materializations` set, `success` set, or neither
(`Unexpected response format`). -/
inductive StickyResponse where
  | missingMaterializations
  | success (resolvedFlags : List ResolvedFlag)
  | malformed

/-- The `for flag in resolve_response.resolved_flags` search. -/
def findFlag : List ResolvedFlag → Str → Option ResolvedFlag
  | [], _ => Option.none
  | rf :: rest, name => if rf.flag = name then some rf else findFlag rest name

/-- What `_evaluate` hands back: a `FlagResolutionDetails` (value,
variant, converted reason). -/
structure ResolutionDetails where
  value : PyValue
  variant : Str
  reason : OFReason

/-- The `FlagNotFoundError` message for a missing-materializations
response. -/
def remoteResolveMsg (flagName : Str) : Str :=
  "Flag ".toList ++ flagName ++ " requires remote resolve (not implemented)".toList

/-- The `GeneralError` message for a response with neither variant. -/
def unexpectedFormatMsg (flagName : Str) : Str :=
  "Unexpected response format for flag ".toList ++ flagName ++ []

/-- The `FlagNotFoundError` message when the flag is absent. -/
def flagNotFoundMsg (flagName : Str) : Str :=
  "Flag ".toList ++ flagName ++ " not found".toList

/-- The body of `_evaluate`'s `try` block, given the (guest-supplied)
response to `resolve_with_sticky`: split the key, inspect the response,
find the flag, extract along the path, convert the reason. -/
def evaluateTry (flagKey : Str) (resp : StickyResponse) :
    Except OFError ResolutionDetails :=
  let parts := splitDots flagKey
  let flagName := parts.headD []
  let path := parts.tail
  match resp with
  | StickyResponse.missingMaterializations =>
      Except.error (OFError.flagNotFound (remoteResolveMsg flagName))
  | StickyResponse.malformed =>
      Except.error (OFError.generalError (unexpectedFormatMsg flagName))
  | StickyResponse.success flags =>
      match findFlag flags flagName with
      | Option.none => Except.error (OFError.flagNotFound (flagNotFoundMsg flagName))
      | some rf =>
          match extractValue rf.value path with
          | ExtractResult.ok v =>
              Except.ok { value := v, variant := rf.variant,
                          reason := convertReason rf.reason }
          | ExtractResult.raisedParseError m =>
              Except.error (OFError.parseError m)

/-- The `GeneralError` wrapper message of `_evaluate`'s `except`
clause. -/
def evalFailMsg (flagKey : Str) (inner : Str) : Str :=
  "Failed to evaluate flag ".toList ++ flagKey ++ ": ".toList ++ inner

/-- `_evaluate`'s `except Exception` clause: `FlagNotFoundError` and
`TypeMismatchError` are re-raised as-is, every other exception —
`ParseError` included — is wrapped into a `GeneralError`. -/
def wrapEvalError (flagKey : Str) : OFError → OFError
  | OFError.flagNotFound m => OFError.flagNotFound m
  | OFError.typeMismatch m => OFError.typeMismatch m
  | e => OFError.generalError (evalFailMsg flagKey e.message)

/-- `_evaluate`: the `try` body with its error wrapping. -/
def evaluate (flagKey : Str) (resp : StickyResponse) :
    Except OFError ResolutionDetails :=
  match evaluateTry flagKey resp with
  | Except.ok d => Except.ok d
  | Except.error e => Except.error (wrapEvalError flagKey e)

/-- Python `isinstance(value, int)`: `True` for ints and for bools,
because `bool` is a subclass of `int`. -/
def pyIsInstanceInt : PyValue → Bool
  | PyValue.int _ => true
  | PyValue.bool _ => true
  | _ => false

/-- `resolve_integer_details`: evaluate, then raise `TypeMismatchError`
unless `isinstance(result.value, int)`. -/
def resolveIntegerDetails (flagKey : Str) (resp : StickyResponse) :
    Except OFError ResolutionDetails :=
  match evaluate flagKey resp with
  | Except.error e => Except.error e
  | Except.ok d =>
      if pyIsInstanceInt d.value then Except.ok d
      else Except.error (OFError.typeMismatch
        ("Flag ".toList ++ flagKey ++ " is not an integer".toList))

/-! ## Helper lemmas about the supervisor -/

lemma reloadCount_append (a b : List Event) :
    reloadCount (a ++ b) = reloadCount a + reloadCount b := by
  simp [reloadCount, List.filter_append]

lemma reloadCount_guestCall (i : Nat) (g : GuestOp) (o : Outcome) :
    reloadCount [Event.guestCall i g o] = 0 := rfl

/-- `_reload_instance` creates exactly one fresh instance, whatever the
outcomes of its best-effort salvage flush and state restoration. -/
lemma reloadCount_reloadInstance (s : SupState) (outs : List Outcome) :
    reloadCount (reloadInstance s outs).2.1 = 1 := by
  rcases outs with _ | ⟨o, rest⟩
  · cases h : s.currentState <;>
      simp [reloadInstance, nextOutcome, h, reloadCount, Event.isNewInstance]
  · rcases o with b | _ | e <;> cases h : s.currentState <;>
      simp [reloadInstance, nextOutcome, h, reloadCount, Event.isNewInstance]

/-- `_reload_instance` only ever appends to `_buffered_logs`. -/
lemma reloadInstance_buffer (s : SupState) (outs : List Outcome) :
    ∃ extra, (reloadInstance s outs).1.bufferedLogs = s.bufferedLogs ++ extra := by
  rcases outs with _ | ⟨o, rest⟩
  · refine ⟨[], ?_⟩
    cases h : s.currentState <;> simp [reloadInstance, nextOutcome, h]
  · rcases o with b | _ | e
    · refine ⟨[b], ?_⟩
      cases h : s.currentState <;> simp [reloadInstance, nextOutcome, h]
    · refine ⟨[], ?_⟩
      cases h : s.currentState <;> simp [reloadInstance, nextOutcome, h]
    · refine ⟨[], ?_⟩
      cases h : s.currentState <;> simp [reloadInstance, nextOutcome, h]

lemma concatChunks_snoc (l : List Bytes) (c : Bytes) :
    concatChunks (l ++ [c]) = concatChunks l ++ c := by
  simp [concatChunks, List.foldl_append]


lemma reloadCount_guestCall_cons (i : Nat) (g : GuestOp) (o : Outcome)
    (ev : List Event) :
    reloadCount (Event.guestCall i g o :: ev) = reloadCount ev := by
  simp [reloadCount, Event.isNewInstance]

/-- On a leading trap, every supervisor operation reloads exactly once. -/
lemma reloadCount_runOp_trap (s : SupState) (op : SupOp) (rest : List Outcome) :
    reloadCount (runOp s op (Outcome.trap :: rest)).2.2.1 = 1 := by
  cases op
  case setState payload =>
    rcases hr : reloadInstance { s with currentState := some payload } rest
      with ⟨s1, ev1, rest1⟩
    have hc := reloadCount_reloadInstance { s with currentState := some payload } rest
    rw [hr] at hc
    simp only at hc
    simp [runOp, setResolverState, nextOutcome, hr, reloadCount_guestCall_cons, hc]
  case resolve payload =>
    rcases hr : reloadInstance s rest with ⟨s1, ev1, rest1⟩
    have hc := reloadCount_reloadInstance s rest
    rw [hr] at hc
    simp only at hc
    simp [runOp, resolveWithSticky, nextOutcome, hr, reloadCount_guestCall_cons, hc]
  case flush =>
    rcases hr : reloadInstance s rest with ⟨s1, ev1, rest1⟩
    have hc := reloadCount_reloadInstance s rest
    rw [hr] at hc
    simp only at hc
    simp [runOp, flushLogs, nextOutcome, hr, reloadCount_guestCall_cons, hc]

/-- On a leading non-trap outcome, no supervisor operation reloads. -/
lemma reloadCount_runOp_ok (s : SupState) (op : SupOp) (b : Bytes)
    (rest : List Outcome) :
    reloadCount (runOp s op (Outcome.ok b :: rest)).2.2.1 = 0 := by
  cases op <;>
    simp [runOp, setResolverState, resolveWithSticky, flushLogs, nextOutcome,
      reloadCount, Event.isNewInstance]

lemma reloadCount_runOp_guestError (s : SupState) (op : SupOp) (e : String)
    (rest : List Outcome) :
    reloadCount (runOp s op (Outcome.guestError e :: rest)).2.2.1 = 0 := by
  cases op <;>
    simp [runOp, setResolverState, resolveWithSticky, flushLogs, nextOutcome,
      reloadCount, Event.isNewInstance]

/-! ## Claim theorems: supervisor -/

/-- C1: the claim says a `set_state` that traps discards the pending
payload and re-applies the previous current state on reload.  The code
executes `self._current_state = request` before the `try`, so the
concrete run below — state `[1]` current, `set_state([2])` traps, the
salvage flush fails, the restoration succeeds — re-applies the
trap-causing candidate `[2]` to the fresh instance (instance 1) and
holds `[2]` as current afterwards, not `[1]`. -/
theorem c1_reload_reapplies_trap_candidate :
    (setResolverState initSup [1] [Outcome.ok []]).2.1.currentState = some [1] ∧
    (setResolverState (setResolverState initSup [1] [Outcome.ok []]).2.1 [2]
        [Outcome.trap, Outcome.trap, Outcome.ok []]).1 = OpResult.trapErr ∧
    (setResolverState (setResolverState initSup [1] [Outcome.ok []]).2.1 [2]
        [Outcome.trap, Outcome.trap, Outcome.ok []]).2.1.currentState = some [2] ∧
    Event.guestCall 1 (GuestOp.setState [2]) (Outcome.ok []) ∈
      (setResolverState (setResolverState initSup [1] [Outcome.ok []]).2.1 [2]
        [Outcome.trap, Outcome.trap, Outcome.ok []]).2.2.1 ∧
    (setResolverState (setResolverState initSup [1] [Outcome.ok []]).2.1 [2]
        [Outcome.trap, Outcome.trap, Outcome.ok []]).2.1.currentState ≠ some [1] := by
  refine ⟨by decide, by decide, by decide, by decide, by decide⟩

/-- C2: a successful `flush_logs` returns the in-order concatenation of
the salvage buffer followed by the current instance's chunk and leaves
the buffer empty; a `flush_logs` that traps preserves the buffer
contents present before the call across the reload (the reload can only
append a salvaged chunk). -/
theorem c2_flush_concat_and_preserve (s : SupState) (chunk : Bytes)
    (outs outsTrap : List Outcome) :
    flushLogs s (Outcome.ok chunk :: outs) =
      (OpResult.ok (concatChunks (s.bufferedLogs ++ [chunk])),
       { s with bufferedLogs := [] },
       [Event.guestCall s.delegate GuestOp.flush (Outcome.ok chunk)], outs) ∧
    concatChunks (s.bufferedLogs ++ [chunk]) = concatChunks s.bufferedLogs ++ chunk ∧
    (flushLogs s (Outcome.trap :: outsTrap)).1 = OpResult.trapErr ∧
    ∃ extra, (flushLogs s (Outcome.trap :: outsTrap)).2.1.bufferedLogs =
      s.bufferedLogs ++ extra := by
  refine ⟨rfl, concatChunks_snoc _ _, ?_, ?_⟩
  · rcases hr : reloadInstance s outsTrap with ⟨s1, ev1, rest1⟩
    simp [flushLogs, nextOutcome, hr]
  · rcases hr : reloadInstance s outsTrap with ⟨s1, ev1, rest1⟩
    have hb := reloadInstance_buffer s outsTrap
    rw [hr] at hb
    simpa [flushLogs, nextOutcome, hr] using hb

/-- C3: a reload happens on a supervisor operation exactly when the
underlying guest call traps (a `RuntimeError`); a guest-reported
`Response.error` is re-raised unchanged, no fresh instance is created,
and the existing delegate stays current with its buffer intact. -/
theorem c3_reload_iff_trap (s : SupState) (op : SupOp) (b : Bytes) (e : String)
    (rest : List Outcome) :
    reloadCount (runOp s op (Outcome.trap :: rest)).2.2.1 = 1 ∧
    reloadCount (runOp s op (Outcome.ok b :: rest)).2.2.1 = 0 ∧
    reloadCount (runOp s op (Outcome.guestError e :: rest)).2.2.1 = 0 ∧
    (runOp s op (Outcome.guestError e :: rest)).1 = OpResult.guestErr e ∧
    (runOp s op (Outcome.guestError e :: rest)).2.1.delegate = s.delegate ∧
    (runOp s op (Outcome.guestError e :: rest)).2.1.bufferedLogs = s.bufferedLogs := by
  refine ⟨reloadCount_runOp_trap s op rest, reloadCount_runOp_ok s op b rest,
    reloadCount_runOp_guestError s op e rest, ?_, ?_, ?_⟩ <;>
    cases op <;>
    simp [runOp, setResolverState, resolveWithSticky, flushLogs, nextOutcome]

/-- C9: at most one reload happens per supervisor call, whatever the
guest does — in particular a `set_state` that traps, whose reload's
salvage flush traps and whose state restoration traps again (three
leading traps), still reloads exactly once and terminates. -/
theorem c9_reload_at_most_once (s : SupState) (op : SupOp) (outs : List Outcome)
    (req : Bytes) (rest : List Outcome) :
    reloadCount (runOp s op outs).2.2.1 ≤ 1 ∧
    reloadCount (setResolverState s req
      (Outcome.trap :: Outcome.trap :: Outcome.trap :: rest)).2.2.1 = 1 := by
  constructor
  · rcases outs with _ | ⟨o, outs'⟩
    · have h := reloadCount_runOp_trap s op []
      have heq : (Outcome.trap :: ([] : List Outcome)) = [Outcome.trap] := rfl
      cases op <;>
        simp only [runOp, setResolverState, resolveWithSticky, flushLogs,
          nextOutcome] at h ⊢ <;> omega
    · rcases o with b | _ | e
      · rw [reloadCount_runOp_ok s op b outs']; omega
      · rw [reloadCount_runOp_trap s op outs']
      · rw [reloadCount_runOp_guestError s op e outs']; omega
  · have h := reloadCount_runOp_trap s (SupOp.setState req)
      (Outcome.trap :: Outcome.trap :: rest)
    rcases hr : setResolverState s req
        (Outcome.trap :: Outcome.trap :: Outcome.trap :: rest) with ⟨r1, s1, ev1, rest1⟩
    rcases r1 <;> simp [runOp, hr] at h <;> simpa [hr] using h

/-! ## Claim theorems: buffering, fetching, host time -/

lemma reloadInstance_currentState (s : SupState) (outs : List Outcome) :
    (reloadInstance s outs).1.currentState = s.currentState := by
  rcases outs with _ | ⟨o, rest⟩
  · cases h : s.currentState <;> simp [reloadInstance, nextOutcome, h]
  · rcases o with b | _ | e <;> cases h : s.currentState <;>
      simp [reloadInstance, nextOutcome, h]

/-- After `set_resolver_state` the held current state is always the
request passed in — also when the call trapped. -/
lemma setResolverState_currentState (s : SupState) (req : Bytes)
    (outs : List Outcome) :
    (setResolverState s req outs).2.1.currentState = some req := by
  rcases outs with _ | ⟨o, rest⟩
  · rcases hr : reloadInstance { s with currentState := some req } []
      with ⟨s1, ev1, rest1⟩
    have hc := reloadInstance_currentState { s with currentState := some req } []
    rw [hr] at hc
    simp only at hc
    simp [setResolverState, nextOutcome, hr, hc]
  · rcases o with b | _ | e
    · simp [setResolverState, nextOutcome]
    · rcases hr : reloadInstance { s with currentState := some req } rest
        with ⟨s1, ev1, rest1⟩
      have hc := reloadInstance_currentState { s with currentState := some req } rest
      rw [hr] at hc
      simp only at hc
      simp [setResolverState, nextOutcome, hr, hc]
    · simp [setResolverState, nextOutcome]

/-- C4: counterexample to "the salvage buffer is emptied only when the
POST to the remote sink has succeeded".  A resolve traps and chunk `[1]`
is salvaged; the next provider flush succeeds against the guest (chunk
`[2]`), the buffer transitions from `[[1]]` to empty — and the POST of
those bytes fails. -/
theorem c4_buffer_drained_without_post_success :
    (resolveWithSticky initSup [0] [Outcome.trap, Outcome.ok [1]]).2.1.bufferedLogs
      = [[1]] ∧
    (providerFlushLogs (resolveWithSticky initSup [0]
        [Outcome.trap, Outcome.ok [1]]).2.1
        [Outcome.ok [2]] HttpResult.httpError).2.1.bufferedLogs = [] ∧
    (providerFlushLogs (resolveWithSticky initSup [0]
        [Outcome.trap, Outcome.ok [1]]).2.1
        [Outcome.ok [2]] HttpResult.httpError).2.2.1 =
      PostAction.posted HttpResult.httpError := by
  refine ⟨by decide, by decide, by decide⟩

/-- C4 (amended): the salvage buffer is drained exactly when the guest
flush succeeds, independently of the POST's outcome: on a successful
guest flush the buffer empties and the concatenation is handed to
`write_logs` whatever `post` turns out to be; on a trap the buffer is
preserved (possibly extended by a salvaged chunk) and nothing is
POSTed; on a guest-reported error the buffer is untouched and nothing
is POSTed. -/
theorem c4_drain_iff_guest_flush_ok (s : SupState) (chunk : Bytes) (e : String)
    (outs outsTrap outsErr : List Outcome) (post : HttpResult) :
    (providerFlushLogs s (Outcome.ok chunk :: outs) post).2.1.bufferedLogs = [] ∧
    (providerFlushLogs s (Outcome.ok chunk :: outs) post).2.2.1 =
      writeLogs (concatChunks (s.bufferedLogs ++ [chunk])) post ∧
    (∃ extra, (providerFlushLogs s (Outcome.trap :: outsTrap) post).2.1.bufferedLogs
        = s.bufferedLogs ++ extra) ∧
    (providerFlushLogs s (Outcome.trap :: outsTrap) post).2.2.1 = PostAction.skipped ∧
    (providerFlushLogs s (Outcome.guestError e :: outsErr) post).2.1.bufferedLogs
        = s.bufferedLogs ∧
    (providerFlushLogs s (Outcome.guestError e :: outsErr) post).2.2.1 =
      PostAction.skipped := by
  refine ⟨rfl, rfl, ?_, ?_, rfl, rfl⟩
  · rcases hr : reloadInstance s outsTrap with ⟨s1, ev1, rest1⟩
    have hb := reloadInstance_buffer s outsTrap
    rw [hr] at hb
    simpa [providerFlushLogs, flushLogs, nextOutcome, hr] using hb
  · rcases hr : reloadInstance s outsTrap with ⟨s1, ev1, rest1⟩
    simp [providerFlushLogs, flushLogs, nextOutcome, hr]

/-- C5: counterexample to "a 200 without an ETag header stores the new
payload and discards the previously stored etag".  With etag `"v1"` and
payload `[1]` cached, a 200 carrying no ETag header stores payload `[2]`
but keeps etag `"v1"`: etag and payload are not updated together and the
old etag is not discarded. -/
theorem c5_etag_kept_on_200_without_etag :
    (fetchState { etag := some "v1", cachedState := some [1] }
        (HttpResponse.ok Option.none [2]) HttpResponse.httpError).2.etag = some "v1" ∧
    (fetchState { etag := some "v1", cachedState := some [1] }
        (HttpResponse.ok Option.none [2]) HttpResponse.httpError).2.cachedState
      = some [2] ∧
    (fetchState { etag := some "v1", cachedState := some [1] }
        (HttpResponse.ok Option.none [2]) HttpResponse.httpError).2.etag ≠
      Option.none := by
  refine ⟨by decide, by decide, by decide⟩

/-- C5 (amended): on a 200 with an ETag header the pair (etag, payload)
is overwritten together; on a 200 without an ETag header the payload is
stored while the previously stored etag is retained unchanged; a 304
served from cache and an HTTP error with a cache change neither. -/
theorem c5_etag_payload_update_cases (s : FetcherState) (e : String) (b : Bytes)
    (et : Option String) (c : Bytes) (r2 : HttpResponse) :
    (fetchState s (HttpResponse.ok (some e) b) r2).2 =
      { etag := some e, cachedState := some b } ∧
    (fetchState s (HttpResponse.ok Option.none b) r2).2 =
      { etag := s.etag, cachedState := some b } ∧
    (fetchState { etag := et, cachedState := some c } HttpResponse.notModified r2).2 =
      { etag := et, cachedState := some c } ∧
    (fetchState { etag := et, cachedState := some c } HttpResponse.httpError r2).2 =
      { etag := et, cachedState := some c } := by
  refine ⟨rfl, rfl, rfl, rfl⟩

/-- C6: the `current_time` host function never delivers a timestamp:
`time.gmtime` yields a `struct_time`, `Timestamp.FromDatetime` requires
a `datetime`, so the handler's `try` always fails and — per its
`except` clause — every call returns `Response.error` (the host does
not trap, but no `Response.data` timestamp is ever produced). -/
theorem c6_current_time_always_errors (now : Int) :
    currentTime now =
      HostResponse.error "struct_time object has no attribute utctimetuple" := rfl

/-- C7: counterexample to "the push is performed only if the payload is
not already the current one".  A 200 stores payload `[7]` and pushes
it; the next cycle gets a 304 and pushes `[7]` again even though `[7]`
is already the supervisor's current state (the claim expects a
no-op). -/
theorem c7_push_not_skipped_when_already_current :
    (stateUpdateCycle { etag := Option.none, cachedState := Option.none } initSup
        (HttpResponse.ok (some "v1") [7]) HttpResponse.httpError
        [Outcome.ok []]).2.1.currentState = some [7] ∧
    (stateUpdateCycle
        (stateUpdateCycle { etag := Option.none, cachedState := Option.none } initSup
          (HttpResponse.ok (some "v1") [7]) HttpResponse.httpError [Outcome.ok []]).1
        (stateUpdateCycle { etag := Option.none, cachedState := Option.none } initSup
          (HttpResponse.ok (some "v1") [7]) HttpResponse.httpError [Outcome.ok []]).2.1
        HttpResponse.notModified HttpResponse.httpError [Outcome.ok []]).2.2
      = some [7] := by
  refine ⟨by decide, by decide⟩

/-- C7 (amended): a refresh cycle that gets a 304 after a 200 pushes to
the supervisor exactly the payload the 200 stored, and it does so
unconditionally — the push happens (and re-installs the same current
state) even when that payload is already current. -/
theorem c7_304_pushes_payload_of_preceding_200 (fs : FetcherState) (sup : SupState)
    (e : Option String) (b : Bytes) (r2 r2' : HttpResponse)
    (outs outs' : List Outcome) :
    (stateUpdateCycle fs sup (HttpResponse.ok e b) r2 outs).1.cachedState = some b ∧
    (stateUpdateCycle (stateUpdateCycle fs sup (HttpResponse.ok e b) r2 outs).1
        (stateUpdateCycle fs sup (HttpResponse.ok e b) r2 outs).2.1
        HttpResponse.notModified r2' outs').2.2 = some b ∧
    (stateUpdateCycle (stateUpdateCycle fs sup (HttpResponse.ok e b) r2 outs).1
        (stateUpdateCycle fs sup (HttpResponse.ok e b) r2 outs).2.1
        HttpResponse.notModified r2' outs').2.1.currentState = some b := by
  rcases h1 : setResolverState sup b outs with ⟨ra, sup1, ev1, rest1⟩
  rcases h2 : setResolverState sup1 b outs' with ⟨rb, sup2, ev2, rest2⟩
  have hcur := setResolverState_currentState sup1 b outs'
  rw [h2] at hcur
  simp only at hcur
  cases e <;> simp [stateUpdateCycle, fetchState, processSuccess, h1, h2, hcur]

/-! ## Claim theorems: façade evaluation path -/

/-- Python `split(".")` of a dot-free string yields the string itself as
the single segment. -/
lemma splitDots_no_dot (key : Str) (h : ('.' : Char) ∉ key) :
    splitDots key = [key] := by
  induction key with
  | nil => rfl
  | cons c rest ih =>
      have hc : c ≠ '.' := by
        intro hc
        exact h (hc ▸ List.mem_cons_self c rest)
      have hr : ('.' : Char) ∉ rest := fun hm => h (List.mem_cons_of_mem c hm)
      simp [splitDots, ih hr, hc]

/-- The structured value of the C8/C10 scenarios' flag `f`: a single
boolean field `a`. -/
def c8Fields : ProtoFields :=
  ProtoFields.cons "a".toList (ProtoValue.boolValue true) ProtoFields.nil

/-- The resolved-flag list of the C8 scenarios: flag `f` whose value has
the single field `a`. -/
def c8Flags : List ResolvedFlag :=
  [{ flag := "f".toList, value := c8Fields,
     variant := "v".toList, reason := ResolveReason.rMatch }]

/-- C8: counterexample to "a missing nested segment surfaces a
parse-class error to the caller".  Key `f.b` on a flag whose value only
has field `a`: `_extract_value` raises `ParseError`, but `_evaluate`'s
`except` clause re-raises only `FlagNotFoundError` / `TypeMismatchError`
unchanged and wraps everything else, so the caller receives a
`GeneralError`, not a parse-class error. -/
theorem c8_missing_segment_not_parse_class :
    evaluate ("f.b".toList) (StickyResponse.success c8Flags) =
      Except.error (OFError.generalError
        (evalFailMsg ("f.b".toList) (pathNotFoundMsg ["b".toList]))) ∧
    ∀ m, evaluate ("f.b".toList) (StickyResponse.success c8Flags) ≠
      Except.error (OFError.parseError m) := by
  have h1 : evaluate ("f.b".toList) (StickyResponse.success c8Flags) =
      Except.error (OFError.generalError
        (evalFailMsg ("f.b".toList) (pathNotFoundMsg ["b".toList]))) := rfl
  refine ⟨h1, ?_⟩
  intro m h
  rw [h1] at h
  simp at h

/-- C8 (amended): a flag key without dots resolves the flag's top-level
value (the whole converted structure); a key whose nested segment is
missing makes `_extract_value` raise a `ParseError`, which `_evaluate`
wraps into a `GeneralError` before it reaches the caller. -/
theorem c8_evaluate_key_paths
    (name : Str) (fields : ProtoFields) (variant : Str) (reason : ResolveReason)
    (hnd : ('.' : Char) ∉ name)
    (key : Str) (resp : StickyResponse) (m : Str)
    (hp : evaluateTry key resp = Except.error (OFError.parseError m)) :
    evaluate name (StickyResponse.success
        [{ flag := name, value := fields, variant := variant, reason := reason }]) =
      Except.ok { value := PyValue.dict (structToDict fields), variant := variant,
                  reason := convertReason reason } ∧
    evaluate key resp = Except.error (OFError.generalError (evalFailMsg key m)) := by
  constructor
  · simp [evaluate, evaluateTry, splitDots_no_dot name hnd, findFlag,
      extractValue, extractLoop]
  · simp [evaluate, hp, wrapEvalError, OFError.message]

theorem c8_evaluate_key_paths_witness :
    (evaluate ("f".toList) (StickyResponse.success c8Flags) =
      Except.ok { value := PyValue.dict (structToDict c8Fields),
                  variant := "v".toList,
                  reason := convertReason ResolveReason.rMatch }) ∧
    evaluate ("f.b".toList) (StickyResponse.success c8Flags) =
      Except.error (OFError.generalError
        (evalFailMsg ("f.b".toList) (pathNotFoundMsg ["b".toList]))) :=
  c8_evaluate_key_paths ("f".toList) c8Fields ("v".toList) ResolveReason.rMatch
    (by decide) ("f.b".toList) (StickyResponse.success c8Flags)
    (pathNotFoundMsg ["b".toList]) rfl

/-- C10: when a flag evaluates to a boolean, `resolve_integer_details`
does not raise a type mismatch: its `isinstance(result.value, int)`
check accepts booleans (Python's `bool` subclasses `int`), so the
boolean is returned as the integer resolution value. -/
theorem c10_integer_accepts_bool (flagKey : Str) (resp : StickyResponse) (b : Bool)
    (variant : Str) (reason : OFReason)
    (h : evaluate flagKey resp =
      Except.ok { value := PyValue.bool b, variant := variant, reason := reason }) :
    resolveIntegerDetails flagKey resp =
      Except.ok { value := PyValue.bool b, variant := variant, reason := reason } := by
  simp [resolveIntegerDetails, h, pyIsInstanceInt]

/-- The resolver response of the C10 witness: flag `f` with boolean
field `x`. -/
def c10Resp : StickyResponse :=
  StickyResponse.success
    [{ flag := "f".toList,
       value := ProtoFields.cons "x".toList (ProtoValue.boolValue true) ProtoFields.nil,
       variant := "v".toList, reason := ResolveReason.rMatch }]

theorem c10_integer_accepts_bool_witness :
    resolveIntegerDetails ("f.x".toList) c10Resp =
      Except.ok { value := PyValue.bool true, variant := "v".toList,
                  reason := OFReason.targetingMatch } :=
  c10_integer_accepts_bool ("f.x".toList) c10Resp true ("v".toList)
    OFReason.targetingMatch rfl
